import Mathlib

/-!
Verification development for the Vietnamese address-resolution service
(`services-address`).  The Go sources are shallowly embedded: pure functions
become Lean functions over `String`/`List`/`ℚ`; Go `float64` arithmetic on
configuration weights and confidences is modelled by exact rationals; the
external full-text engine, the external string-metric libraries and the
external transliteration library are either taken as function parameters or
modelled from the specification (each such definition is marked in its doc
comment).  Strings are manipulated through explicit `List Char` primitives
(mirroring the byte/rune processing of the Go standard library on the ASCII
fragment that the embedded scenarios exercise).
-/

namespace SvcAddr

/-! ## Basic character and string primitives (Go standard library fragment) -/

/-- The whitespace class used by Go `\s` and (on ASCII input) `unicode.IsSpace`:
space, tab, newline, vertical tab, form feed, carriage return. -/
def isWS (c : Char) : Bool :=
  c = ' ' || c = '\t' || c = '\n' || c = '\x0b' || c = '\x0c' || c = '\r'

def isDigitCh (c : Char) : Bool := '0' ≤ c && c ≤ '9'

def isAsciiUpper (c : Char) : Bool := 'A' ≤ c && c ≤ 'Z'

def isAsciiLower (c : Char) : Bool := 'a' ≤ c && c ≤ 'z'

/-- The uppercase precomposed Vietnamese letters, paired with their lowercase
forms (same order). -/
def viUpper : List Char :=
  "ÁÀẢÃẠĂẮẰẲẴẶÂẤẦẨẪẬÉÈẺẼẸÊẾỀỂỄỆÍÌỈĨỊÓÒỎÕỌÔỐỒỔỖỘƠỚỜỞỠỢÚÙỦŨỤƯỨỪỬỮỰÝỲỶỸỴĐ".data

def viLower : List Char :=
  "áàảãạăắằẳẵặâấầẩẫậéèẻẽẹêếềểễệíìỉĩịóòỏõọôốồổỗộơớờởỡợúùủũụưứừửữựýỳỷỹỵđ".data

/-- `strings.ToLower`, on the ASCII and precomposed-Vietnamese alphabet the
embedded scenarios use. -/
def lowerCh (c : Char) : Char :=
  if isAsciiUpper c then Char.ofNat (c.toNat + 32)
  else ((viUpper.zip viLower).lookup c).getD c

def lowerStr (s : String) : String := ⟨s.data.map lowerCh⟩

/-- `strings.TrimSpace` on ASCII input. -/
def goTrim (s : String) : String :=
  ⟨((s.data.dropWhile isWS).reverse.dropWhile isWS).reverse⟩

/-- Replace every maximal run of whitespace by a single space
(Go `regexp \s+` with replacement `" "`). -/
def collapseWS : List Char → List Char
  | [] => []
  | c :: rest =>
    let r := collapseWS rest
    if isWS c then
      match r with
      | ' ' :: _ => r
      | _ => ' ' :: r
    else
      c :: r

/-- `strings.Fields`: split on whitespace runs, dropping empty fields. -/
def goFields : List Char → List String
  | [] => []
  | c :: rest =>
    if isWS c then goFields rest
    else
      match rest, goFields rest with
      | d :: _, w :: ws => if isWS d then ⟨[c]⟩ :: w :: ws else ⟨c :: w.data⟩ :: ws
      | _, _ => [⟨[c]⟩]

def joinWith (sep : String) : List String → String
  | [] => ""
  | [x] => x
  | x :: rest => x ++ sep ++ joinWith sep rest

/-- Whether `pat` occurs as a contiguous sublist starting at the head. -/
def headMatches (pat : List Char) (l : List Char) : Bool :=
  match pat, l with
  | [], _ => true
  | _ :: _, [] => false
  | p :: ps, c :: cs => p = c && headMatches ps cs

/-- `strings.Contains`: substring occurrence. -/
def containsSub (l pat : List Char) : Bool :=
  match l with
  | [] => pat.isEmpty
  | _ :: rest => headMatches pat l || containsSub rest pat

def strContains (s pat : String) : Bool := containsSub s.data pat.data

/-- `strings.ReplaceAll` on char lists (leftmost, non-overlapping).
A defensive guard returns the input unchanged on an empty pattern (no call
site in the embedded code passes one).  The fuel — initially the input
length — only bounds the recursion; every step consumes at least one
character, so it never runs out. -/
def replaceAllSubAux (pat repl : List Char) : ℕ → List Char → List Char
  | 0, l => l
  | _ + 1, [] => []
  | fuel + 1, c :: rest =>
    if pat.length = 0 then c :: rest
    else if headMatches pat (c :: rest) then
      repl ++ replaceAllSubAux pat repl fuel ((c :: rest).drop pat.length)
    else
      c :: replaceAllSubAux pat repl fuel rest

def replaceAllSub (l pat repl : List Char) : List Char :=
  replaceAllSubAux pat repl l.length l

def goReplaceAll (s pat repl : String) : String :=
  ⟨replaceAllSub s.data pat.data repl.data⟩

/-- `strings.HasPrefix`. -/
def goHasPre (s pat : String) : Bool := headMatches pat.data s.data

/-- UTF-8 byte length of a string: Go `len(s)`. -/
def utf8Len (s : String) : ℕ :=
  (s.data.map (fun c =>
    if c.toNat < 0x80 then 1
    else if c.toNat < 0x800 then 2
    else if c.toNat < 0x10000 then 3
    else 4)).sum

/-! ## A small matching engine for the Go `regexp` patterns of the normalizer

Go's `regexp` (RE2) documents leftmost-first semantics: the match starts as
early as possible and, among matches at that position, is the one a
backtracking search would find first (alternatives tried left to right,
quantifiers greedy).  The concrete patterns compiled by
`TextNormalizerV2.initializePatterns` use only case-insensitive literals,
character classes with greedy counted repetition, prioritized alternation and
a star over a short sequence, so they are transcribed into the following
little language and matched with exactly those priorities.  `(?i)` on the
ASCII alphabet is ASCII case folding. -/

inductive RAtom where
  | lit (s : String)
  | cls (p : Char → Bool) (lo : ℕ) (hi : Option ℕ)

inductive RItem where
  | atom (a : RAtom)
  | alt (alts : List (List RAtom))
  | star (seq : List RAtom)

def charEqCI (c d : Char) : Bool := lowerCh c = lowerCh d

def headMatchesCI (pat : List Char) (l : List Char) : Bool :=
  match pat, l with
  | [], _ => true
  | _ :: _, [] => false
  | p :: ps, c :: cs => charEqCI p c && headMatchesCI ps cs

/-- Length of the maximal leading run satisfying `p`. -/
def leadRun (p : Char → Bool) : List Char → ℕ
  | [] => 0
  | c :: rest => if p c then leadRun p rest + 1 else 0

/-- Candidate (consumed, remainder) pairs for one atom, in backtracking
priority order (greedy: longest repetition first; a literal has at most one). -/
def atomCands (a : RAtom) (l : List Char) : List (List Char × List Char) :=
  match a with
  | RAtom.lit s =>
    if headMatchesCI s.data l then [(l.take s.data.length, l.drop s.data.length)] else []
  | RAtom.cls p lo hi =>
    let run := leadRun p l
    let upper := match hi with | some h => min run h | none => run
    if upper < lo then []
    else (List.range (upper - lo + 1)).map (fun i => (l.take (upper - i), l.drop (upper - i)))

/-- Candidates for a sequence of atoms (consumed text concatenated),
priority order preserved. -/
def seqCands : List RAtom → List Char → List (List Char × List Char)
  | [], l => [([], l)]
  | a :: rest, l =>
    (atomCands a l).flatMap (fun cr =>
      (seqCands rest cr.2).map (fun cr2 => (cr.1 ++ cr2.1, cr2.2)))

/-- Greedy star of an atom sequence: more iterations preferred, iterations
consuming nothing are cut off (fuel bounds the iteration count; the callers
pass the input length, enough since every counted iteration consumes a
character). -/
def starCands : ℕ → List RAtom → List Char → List (List Char × List Char)
  | 0, _, l => [([], l)]
  | fuel + 1, seq, l =>
    ((seqCands seq l).flatMap (fun cr =>
      if cr.1.isEmpty then []
      else (starCands fuel seq cr.2).map (fun cr2 => (cr.1 ++ cr2.1, cr2.2))))
    ++ [([], l)]

def itemCands (it : RItem) (l : List Char) : List (List Char × List Char) :=
  match it with
  | RItem.atom a => atomCands a l
  | RItem.alt alts => alts.flatMap (fun a => seqCands a l)
  | RItem.star seq => starCands l.length seq l

/-- Candidates for a whole pattern; per top-level item the consumed chunk is
recorded, so wrappers can read off capture groups. -/
def patCands : List RItem → List Char → List (List (List Char) × List Char)
  | [], l => [([], l)]
  | it :: rest, l =>
    (itemCands it l).flatMap (fun cr =>
      (patCands rest cr.2).map (fun cr2 => (cr.1 :: cr2.1, cr2.2)))

/-- First (highest-priority) match of the pattern starting exactly here. -/
def matchHere (pat : List RItem) (l : List Char) : Option (List (List Char) × List Char) :=
  (patCands pat l).head?

/-- Leftmost match: `(prefix kept, per-item chunks, remainder)`. -/
def findLeftmost (pat : List RItem) : List Char → Option (List Char × List (List Char) × List Char)
  | [] =>
    match matchHere pat [] with
    | some (cs, r) => some ([], cs, r)
    | none => none
  | c :: rest =>
    match matchHere pat (c :: rest) with
    | some (cs, r) => some ([], cs, r)
    | none =>
      match findLeftmost pat rest with
      | some (pre, cs, r) => some (c :: pre, cs, r)
      | none => none

/-- Whether the pattern matches the whole string (Go `^...$` anchors). -/
def matchFull (pat : List RItem) (l : List Char) : Option (List (List Char)) :=
  ((patCands pat l).filter (fun cr => cr.2.isEmpty)).head?.map (·.1)

/-- `Regexp.ReplaceAllString` with a replacement built from the per-item
chunks.  Matches never start inside a previous match or its replacement.
All patterns used with it consume at least one character; the fuel
(input length + 1) therefore never runs out. -/
def replaceAllRxAux (pat : List RItem) (repl : List (List Char) → List Char) :
    ℕ → List Char → List Char
  | 0, l => l
  | fuel + 1, l =>
    match findLeftmost pat l with
    | none => l
    | some (pre, cs, r) =>
      if r.length = l.length then l
      else pre ++ repl cs ++ replaceAllRxAux pat repl fuel r

def replaceAllRx (pat : List RItem) (repl : List (List Char) → List Char)
    (l : List Char) : List Char :=
  replaceAllRxAux pat repl (l.length + 1) l

/-- `ReplaceAllString` for a `^`-anchored pattern: at most one replacement,
at the start. -/
def replaceAnchored (pat : List RItem) (repl : List Char) (l : List Char) : List Char :=
  match matchHere pat l with
  | some (_, r) => repl ++ r
  | none => l

/-- `FindStringSubmatch`: chunks of the leftmost match. -/
def findSubmatch (pat : List RItem) (l : List Char) : Option (List (List Char)) :=
  (findLeftmost pat l).map (fun x => x.2.1)

/-- Word characters for Go's `\b` (`[0-9A-Za-z_]`). -/
def wordChar (c : Char) : Bool :=
  isDigitCh c || isAsciiUpper c || isAsciiLower c || c = '_'

/-- `ReplaceAllString` for a pattern of the shape `(?i)\b<literal>\b`
(step 4 builds these with `regexp.QuoteMeta`): case-insensitive literal
occurrences flanked by word boundaries, scanned left to right, the
replacement text not rescanned. -/
def replaceWordBAux (key repl : List Char) : ℕ → Option Char → List Char → List Char
  | 0, _, l => l
  | _ + 1, _, [] => []
  | fuel + 1, prev, c :: rest =>
    if key.length = 0 then c :: rest
    else
      let boundaryL := match prev with | none => true | some d => ¬ wordChar d
      let after := (c :: rest).drop key.length
      let boundaryR := match after.head? with | none => true | some d => ¬ wordChar d
      if headMatchesCI key (c :: rest) && boundaryL && boundaryR then
        repl ++ replaceWordBAux key repl fuel ((c :: rest).take key.length).getLast? after
      else
        c :: replaceWordBAux key repl fuel (some c) rest

def replaceWordB (key repl : List Char) (l : List Char) : List Char :=
  replaceWordBAux key repl l.length none l

/-! ## `internal/normalizer`: `TextNormalizerV2`

The regex patterns of `initializePatterns` and the dictionaries of
`initializeMaps`, then the nine pipeline steps of `NormalizeAddress`.
Go iterates `map` literals in an unspecified, per-run randomized order; the
dictionaries are embedded as association lists in the order of the source
literals, and the one map whose iteration order demonstrably changes the
output — `provinceAliases`, scanned by step 8 — is exposed as
a parameter so that distinct run orders can be compared. -/

structure POIInfo where
  company : String
  building : String
  complex : String
  kcn : String
  kdc : String
deriving DecidableEq, Repr

def POIInfo.empty : POIInfo :=
  { company := "", building := "", complex := "", kcn := "", kdc := "" }

structure ComponentTags where
  adminL2 : String
  adminL3 : String
  adminL4 : String
  street : String
  houseNo : String
  poi : POIInfo
  residual : List String
deriving DecidableEq, Repr

def ComponentTags.empty : ComponentTags :=
  { adminL2 := "", adminL3 := "", adminL4 := "", street := "", houseNo := ""
    poi := POIInfo.empty, residual := [] }

structure NormalizationResult where
  originalCleaned : String
  normalizedNoDiacritics : String
  componentTags : ComponentTags
  qualityFlags : List String
  fingerprint : String
deriving DecidableEq, Repr

/-! ### Patterns (`initializePatterns`) -/

/-- `\d{9,}` (phone-like digit runs). -/
def phonePattern : List RItem := [RItem.atom (RAtom.cls isDigitCh 9 none)]

/-- `(?i)CT\d+` (order codes). -/
def orderCodePattern : List RItem :=
  [RItem.atom (RAtom.lit "ct"), RItem.atom (RAtom.cls isDigitCh 1 none)]

/-- `(?i)^(địa chỉ|mr|ms)\s*:?\s*` (leading role labels; anchored). -/
def prefixPattern : List RItem :=
  [RItem.alt [[RAtom.lit "địa chỉ"], [RAtom.lit "mr"], [RAtom.lit "ms"]],
   RItem.atom (RAtom.cls isWS 0 none),
   RItem.atom (RAtom.cls (fun c => c = ':') 0 (some 1)),
   RItem.atom (RAtom.cls isWS 0 none)]

def isPunctFold (c : Char) : Bool :=
  c = '–' || c = '—' || c = '-' || c = '/' || c = ',' || c = '.' || c = ';' || c = ':'

/-- The punctuation-folding class `– — - / , . ; :`, one or more. -/
def punctuationPattern : List RItem := [RItem.atom (RAtom.cls isPunctFold 1 none)]

def notComma (c : Char) : Bool := c ≠ ','

def isAlphaCI (c : Char) : Bool := isAsciiUpper c || isAsciiLower c

def isAlnumCI (c : Char) : Bool := isAlphaCI c || isDigitCh c

def isAlnumDotCI (c : Char) : Bool := isAlnumCI c || c = '.'

/-- `(?i)(CÔNG TY|CTY|NGÂN HÀNG|TRƯỜNG|BỆNH VIỆN|TRUNG TÂM)\s+([^,]+)`.
The literals are written lowercase; matching is ASCII-case-insensitive, which
agrees with Go on the post-`ToLower` text this pattern is applied to. -/
def companyPattern : List RItem :=
  [RItem.alt [[RAtom.lit "công ty"], [RAtom.lit "cty"], [RAtom.lit "ngân hàng"],
              [RAtom.lit "trường"], [RAtom.lit "bệnh viện"], [RAtom.lit "trung tâm"]],
   RItem.atom (RAtom.cls isWS 1 none),
   RItem.atom (RAtom.cls notComma 1 none)]

/-- `(?i)(Tower|Block|Tòa|Lầu|Tầng|Suite|Unit|Apt|Room)\s*([A-Z0-9.]+)`. -/
def buildingPattern : List RItem :=
  [RItem.alt [[RAtom.lit "tower"], [RAtom.lit "block"], [RAtom.lit "tòa"],
              [RAtom.lit "lầu"], [RAtom.lit "tầng"], [RAtom.lit "suite"],
              [RAtom.lit "unit"], [RAtom.lit "apt"], [RAtom.lit "room"]],
   RItem.atom (RAtom.cls isWS 0 none),
   RItem.atom (RAtom.cls isAlnumDotCI 1 none)]

/-- `(?i)(Vinhomes|Royal City|Somerset|VCCI|KCN|KDC|KĐT)\s*([^,]+)`. -/
def complexPattern : List RItem :=
  [RItem.alt [[RAtom.lit "vinhomes"], [RAtom.lit "royal city"], [RAtom.lit "somerset"],
              [RAtom.lit "vcci"], [RAtom.lit "kcn"], [RAtom.lit "kdc"], [RAtom.lit "kđt"]],
   RItem.atom (RAtom.cls isWS 0 none),
   RItem.atom (RAtom.cls notComma 1 none)]

def isDigit19 (c : Char) : Bool := '1' ≤ c && c ≤ '9'

/-- `(?i)P\.\s*([1-9]|1[0-9]|20|[a-zA-Z]+)`. -/
def phuongPattern : List RItem :=
  [RItem.atom (RAtom.lit "p."),
   RItem.atom (RAtom.cls isWS 0 none),
   RItem.alt [[RAtom.cls isDigit19 1 (some 1)], [RAtom.lit "1", RAtom.cls isDigitCh 1 (some 1)],
              [RAtom.lit "20"], [RAtom.cls isAlphaCI 1 none]]]

/-- `(?i)P\s*([0-9]{3,5})`. -/
def phongPattern : List RItem :=
  [RItem.atom (RAtom.lit "p"),
   RItem.atom (RAtom.cls isWS 0 none),
   RItem.atom (RAtom.cls isDigitCh 3 (some 5))]

/-- `-[0-9]+`, the body of the optional dashed suffixes in step-6 patterns. -/
def dashDigits : List RAtom := [RAtom.lit "-", RAtom.cls isDigitCh 1 none]

/-- Slash-or-dash followed by digits, the starred suffix of house numbers and alleys. -/
def slashDigits : List RAtom :=
  [RAtom.cls (fun c => c = '/' || c = '-') 1 (some 1), RAtom.cls isDigitCh 1 none]

/-- `(?i)^(?:CH|CAN\s*HO)\s*([0-9]+(?:-[0-9]+)?)$`. -/
def apartmentPattern : List RItem :=
  [RItem.alt [[RAtom.lit "ch"], [RAtom.lit "can", RAtom.cls isWS 0 none, RAtom.lit "ho"]],
   RItem.atom (RAtom.cls isWS 0 none),
   RItem.atom (RAtom.cls isDigitCh 1 none),
   RItem.alt [dashDigits, []]]

/-- `(?i)^(?:TANG|LAU)\s*([0-9]+)$`. -/
def floorPattern : List RItem :=
  [RItem.alt [[RAtom.lit "tang"], [RAtom.lit "lau"]],
   RItem.atom (RAtom.cls isWS 0 none),
   RItem.atom (RAtom.cls isDigitCh 1 none)]

/-- `(?i)^(?:VH|VAN\s*PHONG)\s*([0-9]+)$`. -/
def officePattern : List RItem :=
  [RItem.alt [[RAtom.lit "vh"], [RAtom.lit "van", RAtom.cls isWS 0 none, RAtom.lit "phong"]],
   RItem.atom (RAtom.cls isWS 0 none),
   RItem.atom (RAtom.cls isDigitCh 1 none)]

/-- `(?i)^(?:BLOCK|TOA)\s*([A-Z0-9]+)$`. -/
def blockTowerPattern : List RItem :=
  [RItem.alt [[RAtom.lit "block"], [RAtom.lit "toa"]],
   RItem.atom (RAtom.cls isWS 0 none),
   RItem.atom (RAtom.cls isAlnumCI 1 none)]

/-- The six alternatives of the capture group of
`HOUSE_NO = (?i)^(?:SO\s*)?(...)$`.  The star over the slash-or-dash digit groups and the
nested optionals force the alternation to the top level here; the pattern
variants are tried in the source's alternation order.  (Interchanging the
priority of the optional `SO\s*` with the group alternation is harmless: no
word admits full matches through two different variants.) -/
def soOpt : RItem := RItem.alt [[RAtom.lit "so", RAtom.cls isWS 0 none], []]

def houseNoVariants : List (List RItem) :=
  [ [soOpt, RItem.atom (RAtom.cls isDigitCh 1 none), RItem.star slashDigits],
    [soOpt, RItem.atom (RAtom.lit "nv"), RItem.atom (RAtom.cls isDigitCh 1 none),
     RItem.alt [dashDigits, []]],
    [soOpt, RItem.atom (RAtom.lit "lo"), RItem.atom (RAtom.cls isWS 0 none),
     RItem.atom (RAtom.cls isAlnumCI 1 none),
     RItem.alt [[RAtom.lit "-", RAtom.cls isAlnumCI 1 none], []]],
    [soOpt, RItem.atom (RAtom.lit "ch"), RItem.atom (RAtom.cls isWS 0 none),
     RItem.atom (RAtom.cls isDigitCh 1 none), RItem.alt [dashDigits, []]],
    [soOpt, RItem.atom (RAtom.lit "tang"), RItem.atom (RAtom.cls isWS 0 none),
     RItem.atom (RAtom.cls isDigitCh 1 none)],
    [soOpt, RItem.atom (RAtom.lit "lau"), RItem.atom (RAtom.cls isWS 0 none),
     RItem.atom (RAtom.cls isDigitCh 1 none)] ]

/-- Full-match a word against `HOUSE_NO`; the capture is everything after the
optional `SO\s*` chunk. -/
def houseNoMatch (w : List Char) : Option (List Char) :=
  (houseNoVariants.filterMap (fun pat =>
    (matchFull pat w).map (fun chunks => (chunks.drop 1).flatten))).head?

/-- `(?i)^(?:(QL|DT|TL|HL|DH))\s*([0-9]+[A-Z]?)$`; captures (road type, code). -/
def roadCodePattern : List RItem :=
  [RItem.alt [[RAtom.lit "ql"], [RAtom.lit "dt"], [RAtom.lit "tl"],
              [RAtom.lit "hl"], [RAtom.lit "dh"]],
   RItem.atom (RAtom.cls isWS 0 none),
   RItem.atom (RAtom.cls isDigitCh 1 none),
   RItem.atom (RAtom.cls isAlphaCI 0 (some 1))]

/-- `(?i)^(?:HEM|HẺM|NGO|NGÕ|NGACH|NGÁCH|KIET|KIỆT)` then `\s*` then digits with
starred slash-or-dash digit groups, anchored. -/
def alleyPattern : List RItem :=
  [RItem.alt [[RAtom.lit "hem"], [RAtom.lit "hẻm"], [RAtom.lit "ngo"], [RAtom.lit "ngõ"],
              [RAtom.lit "ngach"], [RAtom.lit "ngách"], [RAtom.lit "kiet"], [RAtom.lit "kiệt"]],
   RItem.atom (RAtom.cls isWS 0 none),
   RItem.atom (RAtom.cls isDigitCh 1 none),
   RItem.star slashDigits]

/-- `(?i)^(?:HEM|NGO|NGACH|KIET)\s+([A-Z0-9]+(?:\s+[A-Z0-9]+)*)$`. -/
def alleyNamePattern : List RItem :=
  [RItem.alt [[RAtom.lit "hem"], [RAtom.lit "ngo"], [RAtom.lit "ngach"], [RAtom.lit "kiet"]],
   RItem.atom (RAtom.cls isWS 1 none),
   RItem.atom (RAtom.cls isAlnumCI 1 none),
   RItem.star [RAtom.cls isWS 1 none, RAtom.cls isAlnumCI 1 none]]

/-- `(?i)^(?:Q|QUAN)\s*([0-9]+)$` and its locality siblings. -/
def numTagPattern (alts : List String) : List RItem :=
  [RItem.alt (alts.map (fun s => [RAtom.lit s])),
   RItem.atom (RAtom.cls isWS 0 none),
   RItem.atom (RAtom.cls isDigitCh 1 none)]

def qNumPattern : List RItem := numTagPattern ["q", "quan"]

def pNumPattern : List RItem := numTagPattern ["p", "phuong"]

/-- `(?i)^(?:KP|KHU\s*PHO)\s*([0-9]+)$`. -/
def kpNumPattern : List RItem :=
  [RItem.alt [[RAtom.lit "kp"], [RAtom.lit "khu", RAtom.cls isWS 0 none, RAtom.lit "pho"]],
   RItem.atom (RAtom.cls isWS 0 none),
   RItem.atom (RAtom.cls isDigitCh 1 none)]

def toNumPattern : List RItem := numTagPattern ["to"]

def apNumPattern : List RItem := numTagPattern ["ap"]

def thonNumPattern : List RItem := numTagPattern ["thon"]

def xomNumPattern : List RItem := numTagPattern ["xom"]

/-! ### Dictionaries (`initializeMaps`), in source-literal order -/

def alookup (m : List (String × String)) (k : String) : Option String :=
  (m.find? (fun kv => kv.1 = k)).map (·.2)

def adminLevelMap : List (String × String) :=
  [("tp", "thanh_pho"), ("t.p", "thanh_pho"), ("tp.", "thanh_pho"),
   ("tphcm", "thanh_pho_ho_chi_minh"), ("hcm", "ho_chi_minh"),
   ("tp.hcm", "thanh_pho_ho_chi_minh"), ("q", "quan"), ("q.", "quan"),
   ("p", "phuong"), ("p.", "phuong"), ("px", "phuong"), ("tx", "thi_xa"),
   ("tt", "thi_tran"), ("ttg", "thi_tran"), ("h", "huyen"), ("h.", "huyen"),
   ("xa", "xa")]

def streetTypeMap : List (String × String) :=
  [("d", "duong"), ("d.", "duong"), ("dx", "duong"), ("dg", "duong"),
   ("dt", "duong_tinh"), ("dl", "dai_lo"), ("ql", "quoc_lo"), ("tl", "tinh_lo"),
   ("hl", "huyen_lo"), ("pho", "pho"), ("hem", "hem"), ("ngo", "ngo"),
   ("ngach", "ngach"), ("kiet", "kiet")]

def specialCaseMap : List (String × String) :=
  [("cmt8", "cach_mang_thang_tam"), ("3/2", "3_thang_2"),
   ("30/4", "30_thang_4"), ("2/9", "2_thang_9")]

def englishVietnameseMap : List (String × String) :=
  [("ward", "phuong"), ("district", "quan"), ("city", "thanh_pho"),
   ("province", "tinh"), ("street", "duong"), ("industrial park", "kcn"),
   ("export processing zone", "kcx")]

def unigramMap : List (String × String) :=
  [("kdc", "khu_dan_cu"), ("kdt", "khu_do_thi"), ("kcn", "khu_cong_nghiep"),
   ("kp", "khu_pho"), ("to", "to"), ("ap", "ap"), ("thon", "thon"),
   ("xom", "xom"), ("cum", "cum"), ("khoi", "khoi"), ("khom", "khom"),
   ("doi", "doi"), ("lo", "lo"),
   ("cc", "chung_cu"), ("toa", "toa_nha"), ("toanha", "toa_nha"),
   ("block", "block"), ("tang", "tang"), ("lau", "tang"), ("can", "can_ho"),
   ("ch", "can_ho"), ("vh", "van_phong"),
   ("cty", "cong_ty"), ("tnhh", "trach_nhiem_huu_han"), ("cp", "co_phan"),
   ("cn", "chi_nhanh"), ("tc", "trung_tam"), ("bv", "benh_vien"),
   ("nh", "ngan_hang"), ("st", "sieu_thi"), ("ks", "khach_san"),
   ("truong", "truong")]

def bigramMap : List (String × String) :=
  [("thanh_pho", "thanh_pho"), ("thi_xa", "thi_xa"), ("thi_tran", "thi_tran"),
   ("khu_dan_cu", "khu_dan_cu"), ("khu_do_thi", "khu_do_thi"),
   ("khu_pho", "khu_pho"), ("khu_cong_nghiep", "khu_cong_nghiep"),
   ("duong_tinh", "dt"), ("dai_lo", "dl"), ("quoc_lo", "ql"),
   ("tinh_lo", "tl"), ("huyen_lo", "hl"),
   ("toa_nha", "toa_nha"), ("chung_cu", "chung_cu"), ("can_ho", "can_ho"),
   ("van_phong", "van_phong"), ("nha_ve_sinh", "nha_ve_sinh"),
   ("cong_ty", "cong_ty"), ("co_phan", "co_phan"),
   ("trach_nhiem_huu_han", "trach_nhiem_huu_han"), ("chi_nhanh", "chi_nhanh"),
   ("trung_tam", "trung_tam"), ("benh_vien", "benh_vien"),
   ("ngan_hang", "ngan_hang"), ("sieu_thi", "sieu_thi"),
   ("khach_san", "khach_san"), ("bai_bien", "bai_bien"),
   ("dong_song", "dong_song"), ("nui_rung", "nui_rung")]

/-- `provinceAliases`, in source-literal order.  Step 8 iterates this Go map;
its iteration order is randomized per run, so runs correspond to permutations
of this list. -/
def provinceAliases : List (String × List String) :=
  [("ho_chi_minh", ["tp_hcm", "tp.hcm", "tphcm", "hcm", "sai_gon", "sg",
                    "thanh_pho_ho_chi_minh", "hcmc", "saigon"]),
   ("ha_noi", ["hn", "tp_ha_noi", "hanoi", "ha-noi"]),
   ("da_nang", ["dn", "tp_da_nang", "tp.danang", "danang", "da-nang"]),
   ("hai_phong", ["hp", "tp_hai_phong", "haiphong", "hai-phong"]),
   ("can_tho", ["ct", "tp_can_tho", "cantho", "can-tho"]),
   ("khanh_hoa", ["kh", "khanh-hoa"]),
   ("lam_dong", ["ld", "lam-dong"]),
   ("ba_ria_vung_tau", ["brvt", "ba_ria_vung_tau", "ba-ria_vung-tau"]),
   ("dak_lak", ["daklak", "dăk_lak", "đăk_lăk", "dăk_lăk", "đắc_lắc", "dac_lac"]),
   ("dak_nong", ["daknong", "đăk_nông", "dac_nong", "đắc_nông", "dak-nong"]),
   ("tien_giang", ["tiengiang", "tien-giang"])]

/-! ### The transliteration helper -/

/-- Modelled from the spec: `removeDiacritics` calls the external
`go-unidecode` library (spec §4.1 step 3: canonical decomposition, discard
combining marks, `đ`→`d`).  Identity on ASCII; precomposed Vietnamese
lowercase letters fold to their base letter. -/
def unidecodeCh (c : Char) : List Char :=
  if c.toNat < 128 then [c]
  else if "áàảãạăắằẳẵặâấầẩẫậ".data.contains c then ['a']
  else if "éèẻẽẹêếềểễệ".data.contains c then ['e']
  else if "íìỉĩị".data.contains c then ['i']
  else if "óòỏõọôốồổỗộơớờởỡợ".data.contains c then ['o']
  else if "úùủũụưứừửữự".data.contains c then ['u']
  else if "ýỳỷỹỵ".data.contains c then ['y']
  else if c = 'đ' then ['d']
  else []

def unidecodeStr (s : String) : String := ⟨s.data.flatMap unidecodeCh⟩

/-- `TextNormalizerV2.removeDiacritics`. -/
def TextNormalizerV2.removeDiacritics (s : String) : String := unidecodeStr s

/-- `isAdminLevelContext` ("For now, always expand"). -/
def TextNormalizerV2.isAdminLevelContext : Bool := true

/-- `isStreetTypeContext` ("For now, always expand"). -/
def TextNormalizerV2.isStreetTypeContext : Bool := true

/-! ### The nine steps -/

def asciiSafe1 (c : Char) : Bool :=
  isAsciiLower c || isDigitCh c || isWS c || c = '/' || c = '.' || c = '-'

def asciiSafeFallback (c : Char) : Bool :=
  isAsciiLower c || isDigitCh c || isWS c

/-- `step1NoiseRemovalAndDualNormalization`. -/
def TextNormalizerV2.step1 (input : String) : String × String :=
  let original := goTrim input
  if original = "" then ("", "")
  else
    let working := lowerStr original
    let working : String := ⟨replaceAllRx phonePattern (fun _ => " ".data) working.data⟩
    let working : String := ⟨replaceAllRx orderCodePattern (fun _ => " ".data) working.data⟩
    let working : String := ⟨replaceAnchored prefixPattern " ".data working.data⟩
    let working : String := ⟨replaceAllRx punctuationPattern (fun _ => " ".data) working.data⟩
    let normalized := TextNormalizerV2.removeDiacritics working
    let normalized : String := ⟨normalized.data.map (fun c => if asciiSafe1 c then c else ' ')⟩
    let normalized := goReplaceAll normalized "đ" "d"
    let normalized := goTrim ⟨collapseWS normalized.data⟩
    let normalized :=
      if normalized = "" then
        let fb := TextNormalizerV2.removeDiacritics (lowerStr input)
        let fb : String := ⟨fb.data.map (fun c => if asciiSafeFallback c then c else ' ')⟩
        goTrim ⟨collapseWS fb.data⟩
      else normalized
    let normalized :=
      if normalized = "" then "debug_empty_" ++ lowerStr input else normalized
    (original, normalized)

/-- `step2POIAndCompanyExtraction`.  All three `FindStringSubmatch` calls run
on the step input; the `ReplaceAllString` calls run on the accumulating
result. -/
def TextNormalizerV2.step2 (input : String) : String × POIInfo :=
  let il := input.data
  let result := il
  let (result, company) :=
    match findSubmatch companyPattern il with
    | some chunks =>
      (replaceAllRx companyPattern (fun _ => []) result,
       goTrim ⟨(chunks.drop 2).flatten⟩)
    | none => (result, "")
  let (result, building) :=
    match findSubmatch buildingPattern il with
    | some chunks =>
      (replaceAllRx buildingPattern (fun _ => []) result,
       goTrim ⟨(chunks.take 1).flatten ++ " ".data ++ (chunks.drop 2).flatten⟩)
    | none => (result, "")
  let (result, complexV, kcnV, kdcV) :=
    match findSubmatch complexPattern il with
    | some chunks =>
      let g1 : String := ⟨(chunks.take 1).flatten⟩
      let cja := goTrim ⟨g1.data ++ " ".data ++ (chunks.drop 2).flatten⟩
      let nameLower := lowerStr g1
      let kcnV := if strContains nameLower "kcn" then cja else ""
      let kdcV :=
        if strContains nameLower "kcn" then ""
        else if strContains nameLower "kdc" || strContains nameLower "kdt" then cja
        else ""
      (replaceAllRx complexPattern (fun _ => []) result, cja, kcnV, kdcV)
    | none => (result, "", "", "")
  let out := goTrim ⟨collapseWS result⟩
  (out, { company := company, building := building, complex := complexV,
          kcn := kcnV, kdc := kdcV })

/-- `step3SmartAbbreviationExpansion` (the context predicates always hold). -/
def TextNormalizerV2.step3 (input : String) : String :=
  let words := goFields input.data
  joinWith " " (words.map (fun w =>
    let e := w
    let e := match alookup adminLevelMap w with
             | some r => if TextNormalizerV2.isAdminLevelContext then r else e
             | none => e
    let e := match alookup streetTypeMap w with
             | some r => if TextNormalizerV2.isStreetTypeContext then r else e
             | none => e
    let e := match alookup specialCaseMap w with
             | some r => r
             | none => e
    e))

/-- `step4MultiLanguageSupport`: for each dictionary entry, replace
word-bounded occurrences (`(?i)\b<english>\b`) with the Vietnamese form.
With these seven entries no replacement creates or destroys another entry's
occurrences, so the iteration order of the Go map does not affect step 4. -/
def TextNormalizerV2.step4 (input : String) : String :=
  englishVietnameseMap.foldl
    (fun acc kv => ⟨replaceWordB kv.1.data kv.2.data acc.data⟩) input

/-- `step5SmartPDisambiguation`. -/
def TextNormalizerV2.step5 (input : String) : String :=
  let r1 := replaceAllRx phuongPattern
    (fun chunks => "phuong ".data ++ (chunks.drop 2).flatten) input.data
  let r2 := replaceAllRx phongPattern
    (fun chunks => "phong ".data ++ (chunks.drop 2).flatten) r1
  ⟨r2⟩

/-- One word of `step6AdvancedPatternRecognition`: high-priority patterns
first, then normal-priority ones, first match wins.  The match sets of the
patterns within each tier are pairwise disjoint on whitespace-free words, so
the Go map iteration order inside each tier does not affect the outcome; the
source-literal order is used. -/
def TextNormalizerV2.step6Word (w : String) : String × Option String :=
  let l := w.data
  match matchFull apartmentPattern l with
  | some chunks => (⟨"apartment_".data ++ (chunks.drop 2).flatten⟩, some "APARTMENT_UNIT")
  | none =>
  match matchFull floorPattern l with
  | some chunks => (⟨"floor_".data ++ (chunks.drop 2).flatten⟩, none)
  | none =>
  match matchFull officePattern l with
  | some chunks => (⟨"office_".data ++ (chunks.drop 2).flatten⟩, none)
  | none =>
  match matchFull blockTowerPattern l with
  | some chunks => (⟨"block_".data ++ (chunks.drop 2).flatten⟩, none)
  | none =>
  match houseNoMatch l with
  | some g1 => (⟨"so_nha_".data ++ g1⟩, none)
  | none =>
  match matchFull roadCodePattern l with
  | some chunks =>
    (⟨(chunks.take 1).flatten ++ "_".data ++ (chunks.drop 2).flatten⟩, none)
  | none =>
  match matchFull alleyPattern l with
  | some chunks => (⟨"hem_".data ++ (chunks.drop 2).flatten⟩, none)
  | none =>
  match matchFull alleyNamePattern l with
  | some chunks => (⟨"hem_".data ++ (chunks.drop 2).flatten⟩, none)
  | none =>
  match matchFull qNumPattern l with
  | some chunks => (⟨"quan_".data ++ (chunks.drop 2).flatten⟩, none)
  | none =>
  match matchFull pNumPattern l with
  | some chunks => (⟨"phuong_".data ++ (chunks.drop 2).flatten⟩, none)
  | none =>
  match matchFull kpNumPattern l with
  | some chunks => (⟨"khu_pho_".data ++ (chunks.drop 2).flatten⟩, none)
  | none =>
  match matchFull toNumPattern l with
  | some chunks => (⟨"to_".data ++ (chunks.drop 2).flatten⟩, none)
  | none =>
  match matchFull apNumPattern l with
  | some chunks => (⟨"ap_".data ++ (chunks.drop 2).flatten⟩, none)
  | none =>
  match matchFull thonNumPattern l with
  | some chunks => (⟨"thon_".data ++ (chunks.drop 2).flatten⟩, none)
  | none =>
  match matchFull xomNumPattern l with
  | some chunks => (⟨"xom_".data ++ (chunks.drop 2).flatten⟩, none)
  | none => (w, none)

/-- `step6AdvancedPatternRecognition`. -/
def TextNormalizerV2.step6 (input : String) : String × List String :=
  let processed := (goFields input.data).map TextNormalizerV2.step6Word
  (joinWith " " (processed.map (·.1)), processed.filterMap (·.2))

/-- `step7DictionaryReplace`: unigram replacement per word, then the bigram
dictionary applied with `strings.ReplaceAll` over the joined text. -/
def TextNormalizerV2.step7 (input : String) : String :=
  let words := goFields input.data
  let replaced := words.map (fun w => (alookup unigramMap w).getD w)
  let text := joinWith " " replaced
  bigramMap.foldl (fun acc kv => goReplaceAll acc kv.1 kv.2) text

/-- The scan of the `provinceAliases` map for one word inside step 8: a word
equal to the entry's key (or to one of its aliases) sets `AdminL2` to the
key; once `AdminL2` is non-empty the scan stops after the current entry.
`order` is the iteration order of the Go map in the run being modelled. -/
def scanProvinces (order : List (String × List String))
    (tags : ComponentTags) (word : String) : ComponentTags :=
  match order with
  | [] => tags
  | (prov, aliases) :: rest =>
    if word = prov then { tags with adminL2 := prov }
    else
      let tags := if aliases.contains word then { tags with adminL2 := prov } else tags
      if tags.adminL2 ≠ "" then tags else scanProvinces rest tags word

/-- `step8AdministrativeHierarchyDetection` (right-to-left scan). -/
def TextNormalizerV2.step8 (order : List (String × List String))
    (input : String) : String × ComponentTags :=
  let words := goFields input.data
  let tags := words.reverse.foldl (fun tags word =>
    let tags := scanProvinces order tags word
    let tags := if tags.adminL2 ≠ "" && strContains word "quan_" then
        { tags with adminL3 := word } else tags
    let tags := if tags.adminL3 ≠ "" && strContains word "phuong_" then
        { tags with adminL4 := word } else tags
    tags) ComponentTags.empty
  (input, tags)

/-- `step9QualityTaggingAndResidualTracking`. -/
def TextNormalizerV2.step9 (input : String) (existingTags : ComponentTags) :
    String × ComponentTags :=
  let words := goFields input.data
  let st := words.foldl (fun (st : ComponentTags × List String × List String) w =>
    let (tags, residual, processed) := st
    if goHasPre w "so_nha_" then
      ({ tags with houseNo := w }, residual, processed ++ [w])
    else if goHasPre w "quan_" || goHasPre w "huyen_" then
      (if tags.adminL3 = "" then { tags with adminL3 := w } else tags,
       residual, processed ++ [w])
    else if goHasPre w "phuong_" || goHasPre w "xa_" then
      (if tags.adminL4 = "" then { tags with adminL4 := w } else tags,
       residual, processed ++ [w])
    else if strContains w "duong" || goHasPre w "ql_" || goHasPre w "dt_" then
      ({ tags with street := w }, residual, processed ++ [w])
    else if utf8Len w ≥ 2 then
      (tags, residual, processed ++ [w])
    else
      (tags, residual ++ [w], processed)) (existingTags, [], [])
  let finalTags := { st.1 with residual := st.2.1 }
  let finalText := goTrim ⟨collapseWS (joinWith " " st.2.2).data⟩
  (finalText, finalTags)

/-- `TextNormalizerV2.generateFingerprint`: despite its name and its comment
("SHA256 of normalized + version as per PROMPT") it returns the literal
concatenation, not a hash. -/
def TextNormalizerV2.generateFingerprint (normalized version : String) : String :=
  "sha256:" ++ normalized ++ "\x1F" ++ version

/-- `TextNormalizerV2.NormalizeAddress`, the nine-step pipeline.  `order` is
the iteration order of the `provinceAliases` map in the modelled run. -/
def TextNormalizerV2.NormalizeAddress (order : List (String × List String))
    (rawAddress : String) : NormalizationResult :=
  let s1 := TextNormalizerV2.step1 rawAddress
  let originalCleaned := s1.1
  let s2 := TextNormalizerV2.step2 s1.2
  let poi := s2.2
  let poiFlags :=
    if poi.company ≠ "" || poi.building ≠ "" || poi.complex ≠ "" then
      ["POI_EXTRACTED"] else []
  let expanded := TextNormalizerV2.step3 s2.1
  let translated := TextNormalizerV2.step4 expanded
  let disambiguated := TextNormalizerV2.step5 translated
  let s6 := TextNormalizerV2.step6 disambiguated
  let replaced := TextNormalizerV2.step7 s6.1
  let s8 := TextNormalizerV2.step8 order replaced
  let tagsIn := { ComponentTags.empty with
    adminL2 := s8.2.adminL2, adminL3 := s8.2.adminL3, adminL4 := s8.2.adminL4,
    poi := poi }
  let s9 := TextNormalizerV2.step9 s8.1 tagsIn
  { originalCleaned := originalCleaned,
    normalizedNoDiacritics := s9.1,
    componentTags := s9.2,
    qualityFlags := poiFlags ++ s6.2,
    fingerprint := TextNormalizerV2.generateFingerprint s9.1 "1.0.0" }

/-- Whether a string contains at least one ASCII letter or digit. -/
def hasAlnum (s : String) : Bool := s.data.any isAlnumCI

/-- The `sha256:<64 lowercase hex>` format required of fingerprints. -/
def isSha256Format (s : String) : Bool :=
  goHasPre s "sha256:" && (s.data.drop 7).length = 64 &&
    (s.data.drop 7).all (fun c => isDigitCh c || ('a' ≤ c && c ≤ 'f'))

/-! ## `AddressMatcher.generateFingerprint`

`fmt.Sprintf("sha256:%x", input)` hex-dumps the UTF-8 bytes of the input
string (the comment in the source says "TODO: Implement actual SHA256
hashing ... Placeholder"). -/

def utf8BytesCh (c : Char) : List ℕ :=
  let n := c.toNat
  if n < 0x80 then [n]
  else if n < 0x800 then [0xC0 + n / 0x40, 0x80 + n % 0x40]
  else if n < 0x10000 then
    [0xE0 + n / 0x1000, 0x80 + (n / 0x40) % 0x40, 0x80 + n % 0x40]
  else
    [0xF0 + n / 0x40000, 0x80 + (n / 0x1000) % 0x40, 0x80 + (n / 0x40) % 0x40,
     0x80 + n % 0x40]

def hexDigitCh (n : ℕ) : Char :=
  if n < 10 then Char.ofNat (48 + n) else Char.ofNat (97 + n - 10)

def hexOfString (s : String) : String :=
  ⟨(s.data.flatMap utf8BytesCh).flatMap (fun b => [hexDigitCh (b / 16), hexDigitCh (b % 16)])⟩

/-- `AddressMatcher.generateFingerprint`. -/
def AddressMatcher.generateFingerprint (normalized gazetteerVersion : String) : String :=
  "sha256:" ++ hexOfString (normalized ++ "\x1F" ++ gazetteerVersion)

/-! ## `internal/search`: `GazetteerSearcher.FindCandidates` -/

/-- `search.AdminCandidate`. -/
structure AdminCandidate where
  id : String
  name : String
  adminSubtype : String
  parentID : String
  path : List String
  pathNormalized : List String
  level : ℕ
  score : ℚ
deriving DecidableEq, Repr

/-- `search.CandidatePath` with the pointers resolved to values. -/
structure CandidatePathV where
  ward : AdminCandidate
  district : AdminCandidate
  province : AdminCandidate
  score : ℚ
  path : String
deriving DecidableEq, Repr

/-- `search.TopK`. -/
structure TopK where
  ward : ℕ
  district : ℕ
  province : ℕ
deriving DecidableEq, Repr

/-- The top-k configuration literal inside `FindCandidates`. -/
def findCandidatesTopK : TopK := { ward := 20, district := 15, province := 10 }

/-- `search.MultiLevelSearchResult` (without the duration field). -/
structure MultiLevelSearchResult where
  paths : List CandidatePathV
  wards : List AdminCandidate
  districts : List AdminCandidate
  provinces : List AdminCandidate
  totalPaths : ℕ
deriving Repr

/-- A conjunction of the filters `FindCandidates` pushes down:
`level = _`, `admin_subtype IN [...]`, `parent_id = "_"`. -/
structure IndexFilter where
  level : Option ℕ
  subtypes : Option (List String)
  parentID : Option String

def filterMatches (f : IndexFilter) (d : AdminCandidate) : Bool :=
  (match f.level with | some l => d.level = l | none => true) &&
  (match f.subtypes with | some ss => ss.contains d.adminSubtype | none => true) &&
  (match f.parentID with | some p => d.parentID = p | none => true)

/-- Modelled from the spec: the external full-text engine behind
`GazetteerSearcher.searchIndex` (spec §4.2): `search(query, filters, limit)`
with filters a conjunction over `level`, `admin_subtype`, `parent_id`.
Ranked retrieval is abstracted by the stored order of the index and `limit`
truncates; the free-text query does not change which documents satisfy the
filters. -/
def searchIndex (idx : List AdminCandidate) (_q : String) (f : IndexFilter)
    (limit : ℕ) : List AdminCandidate :=
  (idx.filter (filterMatches f)).take limit

/-- The `admin_subtype IN [...]` filter of the level-2 query. -/
def provinceSubtypes : List String := ["province", "municipality"]

/-- The `admin_subtype IN [...]` filter of the level-3 query. -/
def districtSubtypes : List String :=
  ["urban_district", "rural_district", "city_under_province"]

/-- The `admin_subtype IN [...]` filter of the level-4 query. -/
def wardSubtypes : List String := ["ward", "commune"]

def GazetteerSearcher.findProvinces (idx : List AdminCandidate) (norm : String) :
    List AdminCandidate :=
  searchIndex idx norm
    { level := some 2, subtypes := some provinceSubtypes, parentID := none }
    findCandidatesTopK.province

def GazetteerSearcher.findDistricts (idx : List AdminCandidate) (norm : String)
    (provinces : List AdminCandidate) : List AdminCandidate :=
  provinces.flatMap (fun province =>
    searchIndex idx norm
      { level := some 3, subtypes := some districtSubtypes, parentID := some province.id }
      findCandidatesTopK.district)

def GazetteerSearcher.findWards (idx : List AdminCandidate) (norm : String)
    (districts : List AdminCandidate) : List AdminCandidate :=
  districts.flatMap (fun district =>
    searchIndex idx norm
      { level := some 4, subtypes := some wardSubtypes, parentID := some district.id }
      findCandidatesTopK.ward)

/-- The dedup key `fmt.Sprintf("%s-%s-%s", ward.ID, district.ID, province.ID)`. -/
def pathKeyOf (w d p : AdminCandidate) : String :=
  w.id ++ "-" ++ d.id ++ "-" ++ p.id

/-- The path-assembly loop of `FindCandidates`, with the per-iteration values:
for each ward, the first district whose id equals the ward's parent and the
first province whose id equals that district's parent; duplicate id-key
triples are skipped. -/
def assemblePaths (wards districts provinces : List AdminCandidate) :
    List CandidatePathV :=
  (wards.foldl (fun (acc : List CandidatePathV × List String) w =>
    match districts.find? (fun d => d.id = w.parentID) with
    | none => acc
    | some d =>
      match provinces.find? (fun p => p.id = d.parentID) with
      | none => acc
      | some p =>
        let key := pathKeyOf w d p
        if acc.2.contains key then acc
        else
          (acc.1 ++ [{ ward := w, district := d, province := p,
                       score := (w.score + d.score + p.score) / 3,
                       path := p.name ++ " > " ++ d.name ++ " > " ++ w.name }],
           acc.2 ++ [key])) ([], [])).1

/-- `GazetteerSearcher.FindCandidates`.  The repository's Dockerfiles pin
`golang:1.21`; under Go ≤ 1.21 the range variable `ward` of the assembly loop
is a single variable whose address (`Ward: &ward`) is stored in every emitted
`CandidatePath`, so by the time the function returns every path's `Ward`
dereferences to the last element of `wards`.  The district and province
pointers come from fresh inner-loop variables and the score, dedup key and
display string are computed from the values current at each iteration, so
only the ward reference is affected. -/
def GazetteerSearcher.FindCandidates (idx : List AdminCandidate) (norm : String) :
    MultiLevelSearchResult :=
  let provinces := GazetteerSearcher.findProvinces idx norm
  let districts := GazetteerSearcher.findDistricts idx norm provinces
  let wards := GazetteerSearcher.findWards idx norm districts
  let assembled := assemblePaths wards districts provinces
  let paths :=
    match wards.getLast? with
    | some wLast => assembled.map (fun p => { p with ward := wLast })
    | none => assembled
  { paths := paths, wards := wards, districts := districts,
    provinces := provinces, totalPaths := paths.length }

/-! ## Scoring: `ScorePath` and `sim` (`internal/parser/address_matcher.go`) -/

/-- Modelled from the spec (§3 "Signals"): the `normalizer.Signals` struct is
declared in `internal/normalizer/normalizer_simple.go`, which is not among
the provided sources; its fields here are the ones read at the embedded call
sites (`ScorePath`, `componentCompleteness`, `buildFlags`). -/
structure Signals where
  house : String
  road : String
  unit : String
  level : String
  poi : String
  roadType : String
  roadCode : String
deriving DecidableEq, Repr

/-- `parser.ScoreParts`. -/
structure ScoreParts where
  simWard : ℚ
  simDistrict : ℚ
  simProvince : ℚ
  structural : ℚ
  roadBonus : ℚ
  poiBonus : ℚ
  lpCoverage : ℚ
deriving DecidableEq, Repr

/-- The hard-coded weight literal inside `ScorePath`. -/
structure ScoringWeights where
  ward : ℚ
  district : ℚ
  province : ℚ
  structuralBonus : ℚ
  roadcodeBonus : ℚ
  poiBonus : ℚ
  libpostalCoverage : ℚ
deriving DecidableEq, Repr

def scorePathWeights : ScoringWeights :=
  { ward := 35/100, district := 25/100, province := 15/100,
    structuralBonus := 10/100, roadcodeBonus := 7/100, poiBonus := 5/100,
    libpostalCoverage := 3/100 }

/-- The token following the first occurrence of a marker token. -/
def tokenAfter (markers : List String) : List String → String
  | [] => ""
  | w :: rest => if markers.contains w then (rest.head?.getD "") else tokenAfter markers rest

/-- Modelled from the spec: `normalizer.ExtractAdminTokens` lives in
`internal/normalizer/normalizer_simple.go`, which is not among the provided
sources.  Spec §4.4: the admin-token slice of the normalized text is
extracted per level by the marker phrases "phuong X",
"quan|huyen|thi xa|thi tran|thanh pho X" and "tinh|thanh pho X"; modelled as
the token following the first marker of the level, returned as the
(ward, district, province) triple. -/
def ExtractAdminTokens (norm : String) : String × String × String :=
  let ws := goFields norm.data
  (tokenAfter ["phuong"] ws,
   tokenAfter ["quan", "huyen", "thi_xa", "thi_tran", "thanh_pho"] ws,
   tokenAfter ["tinh", "thanh_pho"] ws)

/-- `sim`: `0.7·JaroWinkler + 0.3·(1 - levenshtein/max-length)` on the
lowercased strings, `0` if either is empty.  The two string metrics come from
external libraries (`smetrics.JaroWinkler(·, ·, 0.7, 4)` and
`levenshtein.ComputeDistance`) and are parameters; Go `len` is the UTF-8 byte
length. -/
def sim (jw : String → String → ℚ) (levd : String → String → ℕ)
    (a b : String) : ℚ :=
  if a = "" || b = "" then 0
  else
    let a := lowerStr a
    let b := lowerStr b
    let j := jw a b
    let ld := levd a b
    let den : ℚ := ((max (utf8Len a) (utf8Len b) : ℕ) : ℚ)
    let lev := 1 - (ld : ℚ) / den
    7/10 * j + 3/10 * lev

/-- `ScorePath`.  The source reads `path.Ward.PathNormalized` with
`strings.Contains`; the struct field is a `[]string`, read here as its
space-joined text. -/
def ScorePath (jw : String → String → ℚ) (levd : String → String → ℕ)
    (norm : String) (path : CandidatePathV) (sig : Signals) (lpCov : ℚ) :
    ℚ × ScoreParts :=
  let toks := ExtractAdminTokens norm
  let wardPathText := lowerStr (joinWith " " path.ward.pathNormalized)
  let roadBonus : ℚ :=
    if sig.roadType ≠ "" && strContains wardPathText (lowerStr (sig.roadType ++ sig.roadCode))
    then 1 else 0
  let poiBonus : ℚ :=
    if sig.poi ≠ "" && strContains wardPathText (lowerStr sig.poi) then 1 else 0
  let parts : ScoreParts :=
    { simWard := sim jw levd toks.1 path.ward.name,
      simDistrict := sim jw levd toks.2.1 path.district.name,
      simProvince := sim jw levd toks.2.2 path.province.name,
      structural := 1, roadBonus := roadBonus, poiBonus := poiBonus,
      lpCoverage := lpCov }
  let w := scorePathWeights
  let score := w.ward * parts.simWard + w.district * parts.simDistrict +
    w.province * parts.simProvince + w.structuralBonus * parts.structural +
    w.roadcodeBonus * parts.roadBonus + w.poiBonus * parts.poiBonus +
    w.libpostalCoverage * parts.lpCoverage
  let score := if score < 0 then 0 else score
  let score := if score > 1 then 1 else score
  (score, parts)

/-! ## Data model: `app/models` -/

/-- `models.AddressResult` (`app/models/address_result.go`), restricted to the
fields the embedded operations read or write. -/
structure AddressResult where
  raw : String
  canonicalText : String
  normalizedNoDiacritics : String
  residual : String
  rawFingerprint : String
  confidence : ℚ
  matchStrategy : String
  status : String
deriving DecidableEq, Repr

def AddressResult.empty : AddressResult :=
  { raw := "", canonicalText := "", normalizedNoDiacritics := "", residual := ""
    rawFingerprint := "", confidence := 0, matchStrategy := "", status := "" }

/-- `models.AddressCache` (cache entry), restricted to the fields read by the
cache service. -/
structure AddressCache where
  rawFingerprint : String
  rawAddress : String
  normalizedNoDiacritics : String
  canonicalText : String
  parsedResult : AddressResult
  confidence : ℚ
  matchStrategy : String
  gazetteerVersion : String
  manuallyVerified : Bool
  accessCount : ℕ
deriving DecidableEq, Repr

/-- `models.AddressCache.IsValidGazetteerVersion`. -/
def AddressCache.IsValidGazetteerVersion (ac : AddressCache) (currentVersion : String) : Bool :=
  ac.gazetteerVersion = currentVersion

/-! ## Cache service: `MongoCacheService` -/

/-- The purely-functional state of `MongoCacheService`: the in-memory L1
LRU viewed as an association list keyed by the raw cache key, and the
`address_cache` Mongo collection viewed as a list of entries (`FindOne` on the
unique `raw_fingerprint` index returns the first match). -/
structure MongoCacheState where
  l1 : List (String × AddressResult)
  mongo : List AddressCache
deriving Repr

/-- The Mongo lookup inside `MongoCacheService.Get`:
`FindOne` with filter on `raw_fingerprint = hash(key)`.
`hash` stands for `MongoCacheService.generateFingerprint`
(SHA-256 of the key, an external crypto primitive). -/
def MongoCacheService.findMongo (hash : String → String)
    (state : MongoCacheState) (key : String) : Option AddressCache :=
  state.mongo.find? (fun e => e.rawFingerprint = hash key)

/-- `MongoCacheService.Get`: L1 lookup first, then the Mongo lookup by
fingerprint; a Mongo hit returns the entry's `ParsedResult`.  (The access-stat
update and the L1 backfill do not affect the returned value.)  Note the
function has no version argument and performs no `gazetteer_version` check. -/
def MongoCacheService.Get (hash : String → String)
    (state : MongoCacheState) (key : String) : Option AddressResult :=
  match state.l1.lookup key with
  | some r => some r
  | none => (MongoCacheService.findMongo hash state key).map (fun e => e.parsedResult)

/-! ## Status determination: `AddressMatcher.determineStatus` -/

/-- The configuration fields of `AddressMatcher` set by `NewAddressMatcher`. -/
structure AddressMatcherConfig where
  thresholdHigh : ℚ
  thresholdMedium : ℚ
  maxCandidates : ℕ
deriving Repr

/-- `NewAddressMatcher`: thresholdHigh 0.9, thresholdMedium 0.6, maxCandidates 20. -/
def newAddressMatcher : AddressMatcherConfig :=
  { thresholdHigh := 9/10, thresholdMedium := 6/10, maxCandidates := 20 }

/-- `AddressMatcher.determineStatus`, as a function of the result's confidence
and its number of candidates. -/
def AddressMatcher.determineStatus (am : AddressMatcherConfig)
    (confidence : ℚ) (numCandidates : ℕ) : String :=
  let byConf :=
    if confidence ≥ am.thresholdHigh then "matched"
    else if confidence ≥ am.thresholdMedium then "ambiguous"
    else "needs_review"
  if numCandidates = 0 then "unmatched" else byConf

/-! ## Batch parsing: `AddressParser.ParseAddresses` -/

/-- The per-item error fallback of `ParseAddresses`:
`&models.AddressResult{Raw: rawAddress, Status: StatusUnmatched, Confidence: 0}`. -/
def errorResult (rawAddress : String) : AddressResult :=
  { AddressResult.empty with raw := rawAddress, status := "unmatched", confidence := 0 }

/-- `AddressParser.ParseAddresses`.  The per-item `ParseAddress` call (which
performs the normalizer/matcher work and may fail) is the parameter
`parseOne`; `none` plays the role of a non-nil Go error.  An empty input list
is itself an error (`none`). -/
def AddressParserSvc.ParseAddresses (parseOne : String → Option AddressResult)
    (rawAddresses : List String) : Option (List AddressResult) :=
  if rawAddresses.isEmpty then none
  else some (rawAddresses.map (fun a =>
    match parseOne a with
    | some r => r
    | none => errorResult a))

/-! ## Service layer: `AddressService.ParseAddress` -/

/-- `requests.ParseOptions`. -/
structure ParseOptions where
  levels : ℕ
  useCache : Bool
  returnCandidates : Bool
  minConfidence : ℚ
  topK : ℕ
deriving Repr

/-- `AddressService.ParseAddress`: rejects the empty address, delegates to
`parser.ParseAddress` (the parameter `parseOne`, applied at gazetteer version
"1.0.0" upstream), then lifts the confidence to `MinConfidence` and forces
status `needs_review` when the parsed confidence falls below it. -/
def AddressService.ParseAddress (parseOne : String → Option AddressResult)
    (rawAddress : String) (options : ParseOptions) : Option AddressResult :=
  if rawAddress = "" then none
  else
    match parseOne rawAddress with
    | none => none
    | some result =>
      if result.confidence < options.minConfidence then
        some { result with confidence := options.minConfidence, status := "needs_review" }
      else
        some result

/-- The result list computed by `AddressService.ProcessBatchJob`: one slot
per input index, a per-item error (including the empty-address error)
replaced by `{Raw: address, Status: unmatched, Confidence: 0}`. -/
def AddressService.ProcessBatchJobResults (parseOne : String → Option AddressResult)
    (options : ParseOptions) (addresses : List String) : List AddressResult :=
  addresses.map (fun address =>
    match AddressService.ParseAddress parseOne address options with
    | some r => r
    | none => errorResult address)

/-! ## Concrete fixtures used by the evaluation theorems -/

/-- A cache entry written under gazetteer version "1.0.0" (the version
`extractGazetteerVersion` stamps on every `Set`), keyed by a fingerprint. -/
def cacheEntryFor (fp : String) (r : AddressResult) : AddressCache :=
  { rawFingerprint := fp, rawAddress := r.raw,
    normalizedNoDiacritics := r.normalizedNoDiacritics,
    canonicalText := r.canonicalText, parsedResult := r,
    confidence := r.confidence, matchStrategy := r.matchStrategy,
    gazetteerVersion := "1.0.0", manuallyVerified := false, accessCount := 1 }

def mkUnit (id name subtype parent : String) (level : ℕ) : AdminCandidate :=
  { id := id, name := name, adminSubtype := subtype, parentID := parent,
    path := [], pathNormalized := [], level := level, score := 1 }

/-- One province with one `town`-subtype district and one `township`-subtype
ward underneath it. -/
def exIdxTown : List AdminCandidate :=
  [mkUnit "p1" "Prov" "province" "" 2,
   mkUnit "d9" "Town" "town" "p1" 3,
   mkUnit "w9" "Township" "township" "d9" 4]

/-- The level-3 subtype filter exactly as the claim states it (the code's
`districtSubtypes` omits `town`). -/
def claimDistrictSubtypes : List String :=
  ["urban_district", "rural_district", "city_under_province", "town"]

/-- The level-4 subtype filter exactly as the claim states it (the code's
`wardSubtypes` omits `township`). -/
def claimWardSubtypes : List String := ["ward", "commune", "township"]

/-- One province, two districts under it, one ward under each district:
the smallest index on which the assembly loop runs two iterations. -/
def exIdxPaths : List AdminCandidate :=
  [mkUnit "p1" "Prov" "province" "" 2,
   mkUnit "d1" "DistOne" "urban_district" "p1" 3,
   mkUnit "d2" "DistTwo" "urban_district" "p1" 3,
   mkUnit "w1" "WardOne" "ward" "d1" 4,
   mkUnit "w2" "WardTwo" "ward" "d2" 4]

def witnessPath : CandidatePathV :=
  { ward := mkUnit "w1" "WardOne" "ward" "d1" 4,
    district := mkUnit "d1" "DistOne" "urban_district" "p1" 3,
    province := mkUnit "p1" "Prov" "province" "" 2,
    score := 1, path := "Prov > DistOne > WardOne" }

def witnessSignals : Signals :=
  { house := "", road := "", unit := "", level := "", poi := "",
    roadType := "", roadCode := "" }

end SvcAddr

namespace SvcAddr

/-! # Theorems -/

set_option maxRecDepth 40000

/-- C1: neither fingerprint generator computes SHA-256.
`TextNormalizerV2.generateFingerprint` (used by `NormalizeAddress`) returns
the literal concatenation `sha256:<normalized>\x1F<version>`, and
`AddressMatcher.generateFingerprint` hex-dumps the input bytes; on the
normalized text "hanoi saigon" (and on "a") neither output matches
`sha256:[0-9a-f]{64}`, although both sources' comments promise SHA-256. -/
theorem fingerprint_placeholder_not_sha256 :
    (TextNormalizerV2.NormalizeAddress provinceAliases "hanoi saigon").fingerprint
      = TextNormalizerV2.generateFingerprint "hanoi saigon" "1.0.0"
    ∧ TextNormalizerV2.generateFingerprint "hanoi saigon" "1.0.0"
      = "sha256:hanoi saigon\x1F1.0.0"
    ∧ isSha256Format (TextNormalizerV2.generateFingerprint "hanoi saigon" "1.0.0") = false
    ∧ AddressMatcher.generateFingerprint "a" "1.0.0" = "sha256:611f312e302e30"
    ∧ isSha256Format (AddressMatcher.generateFingerprint "a" "1.0.0") = false := by
  refine ⟨by decide, by decide, by decide, by decide, by decide⟩

/-- C3: `NormalizeAddress` is not deterministic across runs.  Step 8 iterates
the `provinceAliases` Go map, whose per-run iteration order is randomized;
on the input "hanoi saigon" the source-literal order leaves
`ComponentTags.AdminL2 = "ho_chi_minh"` (the rightmost word "saigon" wins and
the scan of the later word "hanoi" stops at the `ho_chi_minh` entry), while
the rotated order — a permutation of the same map — reassigns it to
`"ha_noi"` (the `ha_noi` entry is scanned first and "hanoi" is its alias), so
two runs can return different component tags for the same input. -/
theorem normalizeAddress_map_order_nondeterminism :
    (provinceAliases.drop 1 ++ provinceAliases.take 1).Perm provinceAliases
    ∧ (TextNormalizerV2.NormalizeAddress provinceAliases
        "hanoi saigon").componentTags.adminL2 = "ho_chi_minh"
    ∧ (TextNormalizerV2.NormalizeAddress (provinceAliases.drop 1 ++ provinceAliases.take 1)
        "hanoi saigon").componentTags.adminL2 = "ha_noi"
    ∧ TextNormalizerV2.NormalizeAddress provinceAliases "hanoi saigon"
      ≠ TextNormalizerV2.NormalizeAddress (provinceAliases.drop 1 ++ provinceAliases.take 1)
          "hanoi saigon" := by
  refine ⟨?_, by decide, by decide, by decide⟩
  have h1 : provinceAliases.take 1 ++ provinceAliases.drop 1 = provinceAliases :=
    List.take_append_drop 1 provinceAliases
  have h2 : (provinceAliases.drop 1 ++ provinceAliases.take 1).Perm
      (provinceAliases.take 1 ++ provinceAliases.drop 1) := List.perm_append_comm
  exact h1 ▸ h2

/-- C8: the input "unit 5" contains letters and a digit and step 1's own
fallback keeps it non-empty, yet `NormalizeAddress` returns an empty
`NormalizedNoDiacritics`: step 2's building pattern consumes the whole
string into `POI.Building`. -/
theorem normalizeAddress_empty_on_alnum_input :
    hasAlnum "unit 5" = true
    ∧ (TextNormalizerV2.step1 "unit 5").2 = "unit 5"
    ∧ (TextNormalizerV2.step2 "unit 5").1 = ""
    ∧ (TextNormalizerV2.step2 "unit 5").2.building = "unit 5"
    ∧ (TextNormalizerV2.NormalizeAddress provinceAliases "unit 5").normalizedNoDiacritics
      = "" := by
  refine ⟨by decide, by decide, by decide, by decide, by decide⟩

/-- C5 (counterexample): on an index holding one province, one district of
subtype `town` under it and one ward of subtype `township`, the code's
level-3 query returns nothing — its filter `districtSubtypes` omits `town` —
whereas the filter stated by the claim (`claimDistrictSubtypes`) matches the
district; likewise `wardSubtypes` omits `township`. -/
theorem findCandidates_subtype_filter_counterexample :
    GazetteerSearcher.findDistricts exIdxTown "q"
        (GazetteerSearcher.findProvinces exIdxTown "q") = []
    ∧ searchIndex exIdxTown "q"
        { level := some 3, subtypes := some claimDistrictSubtypes, parentID := some "p1" } 15
      = [mkUnit "d9" "Town" "town" "p1" 3]
    ∧ districtSubtypes.contains "town" = false
    ∧ wardSubtypes.contains "township" = false
    ∧ claimDistrictSubtypes.contains "town" = true
    ∧ claimWardSubtypes.contains "township" = true := by
  refine ⟨by decide, by decide, by decide, by decide, by decide, by decide⟩

/-- Everything `searchIndex` returns satisfies the pushed-down filter. -/
theorem mem_searchIndex_filter {idx : List AdminCandidate} {q : String}
    {f : IndexFilter} {limit : ℕ} {d : AdminCandidate}
    (h : d ∈ searchIndex idx q f limit) : filterMatches f d = true := by
  unfold searchIndex at h
  exact (List.mem_filter.mp (List.take_subset _ _ h)).2

/-- `searchIndex` returns at most `limit` documents. -/
theorem searchIndex_length_le (idx : List AdminCandidate) (q : String)
    (f : IndexFilter) (limit : ℕ) :
    (searchIndex idx q f limit).length ≤ limit := by
  unfold searchIndex
  rw [List.length_take]
  exact min_le_left _ _

/-- C5 (amended): the candidate builder queries level 2 with
subtype ∈ {province, municipality} and top-K 10; per province, level 3 with
`parent_id = province.id` and subtype ∈ {urban_district, rural_district,
city_under_province} and top-K 15; per district, level 4 with
`parent_id = district.id` and subtype ∈ {ward, commune} and top-K 20. -/
theorem findCandidates_amended (idx : List AdminCandidate) (q : String) :
    findCandidatesTopK = { ward := 20, district := 15, province := 10 }
    ∧ (GazetteerSearcher.findProvinces idx q).length ≤ 10
    ∧ (∀ p ∈ GazetteerSearcher.findProvinces idx q,
        p.level = 2 ∧ provinceSubtypes.contains p.adminSubtype = true)
    ∧ (∀ parent : String,
        (searchIndex idx q
          { level := some 3, subtypes := some districtSubtypes, parentID := some parent }
          15).length ≤ 15)
    ∧ (∀ d ∈ GazetteerSearcher.findDistricts idx q (GazetteerSearcher.findProvinces idx q),
        d.level = 3 ∧ districtSubtypes.contains d.adminSubtype = true
          ∧ ∃ p ∈ GazetteerSearcher.findProvinces idx q, d.parentID = p.id)
    ∧ (∀ parent : String,
        (searchIndex idx q
          { level := some 4, subtypes := some wardSubtypes, parentID := some parent }
          20).length ≤ 20)
    ∧ (∀ w ∈ GazetteerSearcher.findWards idx q
          (GazetteerSearcher.findDistricts idx q (GazetteerSearcher.findProvinces idx q)),
        w.level = 4 ∧ wardSubtypes.contains w.adminSubtype = true
          ∧ ∃ d ∈ GazetteerSearcher.findDistricts idx q
              (GazetteerSearcher.findProvinces idx q), w.parentID = d.id) := by
  refine ⟨rfl, searchIndex_length_le _ _ _ _, ?_, fun parent => searchIndex_length_le _ _ _ _,
    ?_, fun parent => searchIndex_length_le _ _ _ _, ?_⟩
  · intro p hp
    have h := mem_searchIndex_filter hp
    simp only [filterMatches, Bool.and_eq_true, decide_eq_true_eq] at h
    exact ⟨h.1.1, h.1.2⟩
  · intro d hd
    unfold GazetteerSearcher.findDistricts at hd
    obtain ⟨p, hp, hmem⟩ := List.mem_flatMap.mp hd
    have h := mem_searchIndex_filter hmem
    simp only [filterMatches, Bool.and_eq_true, decide_eq_true_eq] at h
    exact ⟨h.1.1, h.1.2, p, hp, h.2⟩
  · intro w hw
    unfold GazetteerSearcher.findWards at hw
    obtain ⟨d, hd, hmem⟩ := List.mem_flatMap.mp hw
    have h := mem_searchIndex_filter hmem
    simp only [filterMatches, Bool.and_eq_true, decide_eq_true_eq] at h
    exact ⟨h.1.1, h.1.2, d, hd, h.2⟩

/-- Witness for `findCandidates_amended` on the concrete town index. -/
theorem findCandidates_amended_witness :
    (GazetteerSearcher.findProvinces exIdxTown "q").length ≤ 10
    ∧ (∀ p ∈ GazetteerSearcher.findProvinces exIdxTown "q",
        p.level = 2 ∧ provinceSubtypes.contains p.adminSubtype = true) :=
  ⟨(findCandidates_amended exIdxTown "q").2.1,
   (findCandidates_amended exIdxTown "q").2.2.1⟩

/-- C6: under the Go 1.21 semantics pinned by the repository's Dockerfiles,
every emitted path's `Ward` pointer dereferences to the last ward of the
loop, so on an index with two districts and one ward each the first emitted
path pairs ward `w2` (child of `d2`) with district `d1`, violating
`ward.parent_id = district.admin_id`; the per-iteration values
(`assemblePaths`) would have satisfied it. -/
theorem findCandidates_aliased_ward_breaks_hierarchy :
    ((GazetteerSearcher.FindCandidates exIdxPaths "q").paths.map
        (fun p => (p.ward.id, p.ward.parentID, p.district.id, p.province.id)))
      = [("w2", "d2", "d1", "p1"), ("w2", "d2", "d2", "p1")]
    ∧ ¬ (∀ p ∈ (GazetteerSearcher.FindCandidates exIdxPaths "q").paths,
          p.ward.parentID = p.district.id)
    ∧ ((assemblePaths
          (GazetteerSearcher.findWards exIdxPaths "q"
            (GazetteerSearcher.findDistricts exIdxPaths "q"
              (GazetteerSearcher.findProvinces exIdxPaths "q")))
          (GazetteerSearcher.findDistricts exIdxPaths "q"
            (GazetteerSearcher.findProvinces exIdxPaths "q"))
          (GazetteerSearcher.findProvinces exIdxPaths "q")).map
        (fun p => (p.ward.id, p.ward.parentID, p.district.id)))
      = [("w1", "d1", "d1"), ("w2", "d2", "d2")] := by
  refine ⟨by decide, by decide, by decide⟩

/-- The two-sided clamp written as two sequential `if`s equals
`min 1 (max 0 ·)`. -/
theorem clamp_eq_min_max (s : ℚ) :
    (if (if s < 0 then (0:ℚ) else s) > 1 then (1:ℚ) else (if s < 0 then (0:ℚ) else s))
      = min 1 (max 0 s) := by
  simp only [min_def, max_def]
  split_ifs <;> linarith

/-- C7: `ScorePath` returns the weighted sum
`0.35·sim_ward + 0.25·sim_district + 0.15·sim_province + 0.10·structural +
0.07·road_bonus + 0.05·poi_bonus + 0.03·lp_coverage` clamped to [0,1] (the
structural term is the constant 1), and on non-empty strings `sim` is the
convex combination `0.7·JaroWinkler + 0.3·(1 − levenshtein/maxlen)` of the
two external metrics, applied to the lowercased strings. -/
theorem scorePath_weighted_sum (jw : String → String → ℚ)
    (levd : String → String → ℕ) (norm : String) (path : CandidatePathV)
    (sig : Signals) (lpCov : ℚ) :
    ((ScorePath jw levd norm path sig lpCov).1
      = min 1 (max 0 (
          35/100 * sim jw levd (ExtractAdminTokens norm).1 path.ward.name
        + 25/100 * sim jw levd (ExtractAdminTokens norm).2.1 path.district.name
        + 15/100 * sim jw levd (ExtractAdminTokens norm).2.2 path.province.name
        + 10/100 * 1
        + 7/100 * (ScorePath jw levd norm path sig lpCov).2.roadBonus
        + 5/100 * (ScorePath jw levd norm path sig lpCov).2.poiBonus
        + 3/100 * lpCov)))
    ∧ ((ScorePath jw levd norm path sig lpCov).2.roadBonus = 0
        ∨ (ScorePath jw levd norm path sig lpCov).2.roadBonus = 1)
    ∧ ((ScorePath jw levd norm path sig lpCov).2.poiBonus = 0
        ∨ (ScorePath jw levd norm path sig lpCov).2.poiBonus = 1)
    ∧ 0 ≤ (ScorePath jw levd norm path sig lpCov).1
    ∧ (ScorePath jw levd norm path sig lpCov).1 ≤ 1
    ∧ (∀ a b : String, a ≠ "" → b ≠ "" →
        sim jw levd a b
          = 7/10 * jw (lowerStr a) (lowerStr b)
            + 3/10 * (1 - ((levd (lowerStr a) (lowerStr b) : ℕ) : ℚ)
                / ((max (utf8Len (lowerStr a)) (utf8Len (lowerStr b)) : ℕ) : ℚ))) := by
  refine ⟨?_, ?_, ?_, ?_, ?_, ?_⟩
  · simp only [ScorePath, scorePathWeights]
    exact clamp_eq_min_max _
  · simp only [ScorePath]
    split_ifs <;> simp
  · simp only [ScorePath]
    split_ifs <;> simp
  · simp only [ScorePath]
    split_ifs <;> linarith [le_refl (0:ℚ)]
  · simp only [ScorePath]
    split_ifs <;> linarith [le_refl (0:ℚ)]
  · intro a b ha hb
    simp only [sim]
    rw [if_neg (by simp [ha, hb])]

/-- Witness for `scorePath_weighted_sum`: `sim` at constant metrics on
concrete non-empty strings. -/
theorem scorePath_weighted_sum_witness :
    sim (fun _ _ => 1/2) (fun _ _ => 1) "ab" "cd"
      = 7/10 * (1/2) + 3/10 * (1 - 1/2) := by
  have h := (scorePath_weighted_sum (fun _ _ => 1/2) (fun _ _ => 1) "x"
    witnessPath witnessSignals 0).2.2.2.2.2 "ab" "cd" (by decide) (by decide)
  rw [h]
  have h1 : lowerStr "ab" = "ab" := by decide
  have h2 : lowerStr "cd" = "cd" := by decide
  rw [h1, h2]
  have h3 : utf8Len "ab" = 2 := by decide
  have h4 : utf8Len "cd" = 2 := by decide
  rw [h3, h4]
  norm_num

/-- C9: for a non-empty batch, `ParseAddresses` succeeds with one result per
input at the same index; a failing item does not fail the batch but becomes
`{Raw: item, Status: unmatched, Confidence: 0}` at its original index. -/
theorem parseAddresses_index_preserving (parseOne : String → Option AddressResult)
    (rawAddresses : List String) (h : rawAddresses ≠ []) :
    AddressParserSvc.ParseAddresses parseOne rawAddresses
      = some (rawAddresses.map (fun a =>
          match parseOne a with | some r => r | none => errorResult a))
    ∧ (rawAddresses.map (fun a =>
          match parseOne a with | some r => r | none => errorResult a)).length
        = rawAddresses.length
    ∧ (∀ i (hi : i < rawAddresses.length)
        (hm : i < (rawAddresses.map (fun a =>
          match parseOne a with | some r => r | none => errorResult a)).length),
        (rawAddresses.map (fun a =>
          match parseOne a with | some r => r | none => errorResult a)).get ⟨i, hm⟩
          = match parseOne (rawAddresses.get ⟨i, hi⟩) with
            | some r => r
            | none => errorResult (rawAddresses.get ⟨i, hi⟩))
    ∧ (∀ a, parseOne a = none →
        (match parseOne a with | some r => r | none => errorResult a)
          = { AddressResult.empty with raw := a, status := "unmatched", confidence := 0 })
    ∧ (∀ options,
        (AddressService.ProcessBatchJobResults parseOne options rawAddresses).length
          = rawAddresses.length)
    ∧ (∀ options i (hi : i < rawAddresses.length)
        (hm : i < (AddressService.ProcessBatchJobResults parseOne options rawAddresses).length),
        (AddressService.ProcessBatchJobResults parseOne options rawAddresses).get ⟨i, hm⟩
          = match AddressService.ParseAddress parseOne (rawAddresses.get ⟨i, hi⟩) options with
            | some r => r
            | none => errorResult (rawAddresses.get ⟨i, hi⟩)) := by
  refine ⟨?_, List.length_map _ _, ?_, ?_, fun options => List.length_map _ _, ?_⟩
  · unfold AddressParserSvc.ParseAddresses
    rw [if_neg (by simpa [List.isEmpty_iff] using h)]
  · intro i hi hm
    simp [List.get_eq_getElem, List.getElem_map]
  · intro a ha
    rw [ha]
    rfl
  · intro options i hi hm
    simp [AddressService.ProcessBatchJobResults, List.get_eq_getElem, List.getElem_map]

/-- Witness for `parseAddresses_index_preserving`: a two-item batch whose
second item fails. -/
theorem parseAddresses_index_preserving_witness :
    AddressParserSvc.ParseAddresses
        (fun a => if a = "bad" then none
                  else some { AddressResult.empty with raw := a, status := "matched" })
        ["good", "bad"]
      = some [{ AddressResult.empty with raw := "good", status := "matched" }, { AddressResult.empty with raw := "bad", status := "unmatched", confidence := 0 }] := by
  rw [(parseAddresses_index_preserving
    (fun a => if a = "bad" then none
              else some { AddressResult.empty with raw := a, status := "matched" })
    ["good", "bad"] (by decide)).1]
  decide

/-- C2 (counterexample): the claim maps the middle confidence band to
`needs_review` and the low band to `unmatched`; at confidence 0.7 with one
surviving candidate `determineStatus` returns `ambiguous`, and at confidence
0.3 with one candidate it returns `needs_review`. -/
theorem determineStatus_claim_counterexample :
    AddressMatcher.determineStatus newAddressMatcher (7/10) 1 = "ambiguous"
    ∧ AddressMatcher.determineStatus newAddressMatcher (7/10) 1 ≠ "needs_review"
    ∧ AddressMatcher.determineStatus newAddressMatcher (3/10) 1 = "needs_review"
    ∧ AddressMatcher.determineStatus newAddressMatcher (3/10) 1 ≠ "unmatched" := by
  refine ⟨?_, ?_, ?_, ?_⟩ <;>
    norm_num [AddressMatcher.determineStatus, newAddressMatcher] <;> decide

/-- C2 (amended): with the default thresholds (0.90, 0.60), the status is
`matched` for confidence ≥ 0.90, `ambiguous` for 0.60 ≤ confidence < 0.90,
`needs_review` for confidence < 0.60, and `unmatched` whenever zero
candidates survive (overriding the confidence bands). -/
theorem determineStatus_amended (c : ℚ) (n : ℕ) :
    (n = 0 → AddressMatcher.determineStatus newAddressMatcher c n = "unmatched")
    ∧ (n ≠ 0 → 9/10 ≤ c →
        AddressMatcher.determineStatus newAddressMatcher c n = "matched")
    ∧ (n ≠ 0 → 6/10 ≤ c → c < 9/10 →
        AddressMatcher.determineStatus newAddressMatcher c n = "ambiguous")
    ∧ (n ≠ 0 → c < 6/10 →
        AddressMatcher.determineStatus newAddressMatcher c n = "needs_review") := by
  unfold AddressMatcher.determineStatus newAddressMatcher
  refine ⟨fun h => by simp [h], fun hn h1 => ?_, fun hn h1 h2 => ?_, fun hn h1 => ?_⟩
  · rw [if_neg hn, if_pos (by exact h1)]
  · rw [if_neg hn, if_neg (by simpa using not_le.mpr h2), if_pos (by exact h1)]
  · rw [if_neg hn, if_neg (by simpa using not_le.mpr (lt_trans h1 (by norm_num))),
      if_neg (by simpa using not_le.mpr h1)]

/-- Witness for `determineStatus_amended` at concrete confidences. -/
theorem determineStatus_amended_witness :
    AddressMatcher.determineStatus newAddressMatcher (95/100) 3 = "matched"
    ∧ AddressMatcher.determineStatus newAddressMatcher (7/10) 3 = "ambiguous"
    ∧ AddressMatcher.determineStatus newAddressMatcher (1/10) 3 = "needs_review"
    ∧ AddressMatcher.determineStatus newAddressMatcher (95/100) 0 = "unmatched" :=
  ⟨(determineStatus_amended (95/100) 3).2.1 (by decide) (by norm_num),
   (determineStatus_amended (7/10) 3).2.2.1 (by decide) (by norm_num) (by norm_num),
   (determineStatus_amended (1/10) 3).2.2.2 (by decide) (by norm_num),
   (determineStatus_amended (95/100) 0).1 rfl⟩

/-- C4: `MongoCacheService.Get` carries no version check — with an empty L1
and a Mongo collection holding one entry written under gazetteer version
"1.0.0", `Get` returns that entry's result even though the entry fails the
model's own `IsValidGazetteerVersion` test against the current version
"2.0.0". -/
theorem mongoCacheGet_returns_stale_version (hash : String → String)
    (key : String) (r : AddressResult) :
    MongoCacheService.Get hash { l1 := [], mongo := [cacheEntryFor (hash key) r] } key
      = some r
    ∧ AddressCache.IsValidGazetteerVersion (cacheEntryFor (hash key) r) "2.0.0" = false := by
  constructor
  · simp [MongoCacheService.Get, MongoCacheService.findMongo, cacheEntryFor, List.lookup]
  · simp [AddressCache.IsValidGazetteerVersion, cacheEntryFor]

/-- C10: when the parsed confidence is below `MinConfidence`, the service
overwrites the confidence to exactly `MinConfidence` and forces status
`needs_review`; otherwise the result is returned unchanged. -/
theorem serviceParseAddress_min_confidence (parseOne : String → Option AddressResult)
    (raw : String) (opts : ParseOptions) (r : AddressResult)
    (hraw : raw ≠ "") (hp : parseOne raw = some r) :
    AddressService.ParseAddress parseOne raw opts =
      some (if r.confidence < opts.minConfidence
            then { r with confidence := opts.minConfidence, status := "needs_review" }
            else r) := by
  simp only [AddressService.ParseAddress, if_neg hraw, hp]
  split_ifs <;> rfl

/-- Witness for `serviceParseAddress_min_confidence`: a parse returning
confidence 0.4 under `min_confidence` 0.5 is reported at exactly 0.5 with
status `needs_review`; under `min_confidence` 0.3 it is returned unchanged. -/
theorem serviceParseAddress_min_confidence_witness :
    AddressService.ParseAddress
        (fun _ => some { AddressResult.empty with confidence := 4/10, status := "matched" })
        "x" { levels := 4, useCache := true, returnCandidates := false,
              minConfidence := 5/10, topK := 5 }
      = some { AddressResult.empty with confidence := 5/10, status := "needs_review" }
    ∧ AddressService.ParseAddress
        (fun _ => some { AddressResult.empty with confidence := 4/10, status := "matched" })
        "x" { levels := 4, useCache := true, returnCandidates := false,
              minConfidence := 3/10, topK := 5 }
      = some { AddressResult.empty with confidence := 4/10, status := "matched" } := by
  constructor
  · rw [serviceParseAddress_min_confidence
      (fun _ => some { AddressResult.empty with confidence := 4/10, status := "matched" })
      "x" _ _ (by decide) rfl]
    norm_num
  · rw [serviceParseAddress_min_confidence
      (fun _ => some { AddressResult.empty with confidence := 4/10, status := "matched" })
      "x" _ _ (by decide) rfl]
    norm_num

end SvcAddr
